import Mathlib

/-!
Verification development for the `rapids_intro.ipynb` notebook of the
cloud-ml-examples repository.

The notebook is a straight-line script: it loads a CSV and computes a tip
percentage column (cuDF example), then generates a synthetic regression
dataset, splits it, copies the split to host memory, fits and scores a
scikit-learn model and a cuML model, and prints the two R^2 scores.

We embed the cuML/sklearn workflow cells as an explicit straight-line
statement trace (which variable each statement assigns, which library
operation it invokes, and which variables it reads), transcribed statement
by statement from the notebook source.  The external library calls
(make_regression, train_test_split, the tip-percentage division, Python
string formatting) are modelled as executable Lean functions where a claim
depends on their semantics.
-/

namespace RapidsIntro

/-- The program variables of the cuML workflow cells, in order of first
assignment in the notebook. -/
inductive Var where
  | X | y
  | X_cudf | X_cudf_test | y_cudf | y_cudf_test
  | X_train | X_test | y_train | y_test
  | ols_sk | predict_sk | r2_score_sk
  | ols_cuml | predict_cuml | r2_score_cuml
deriving DecidableEq, Repr

/-- The library operations invoked by the workflow cells. -/
inductive Op where
  | makeRegressionOp   -- cuml.make_regression
  | toDeviceDf         -- cudf.DataFrame constructor
  | splitOp            -- cuml.train_test_split
  | toPandasOp         -- DataFrame.to_pandas (device-to-host copy)
  | skInitOp           -- sklearn LinearRegression constructor
  | skFitOp            -- ols_sk.fit
  | skPredictOp        -- ols_sk.predict
  | cumlInitOp         -- cuml LinearRegression constructor
  | cumlFitOp          -- ols_cuml.fit
  | cumlPredictOp      -- ols_cuml.predict
  | r2ScoreOp          -- cuml.metrics.regression.r2_score
  | printOp            -- print
deriving DecidableEq, Repr

/-- A statement of the straight-line workflow: either an assignment of the
result of a library operation applied to some variables, or a formatted
print of a variable. -/
inductive Stmt where
  | assign (lhs : List Var) (op : Op) (reads : List Var)
  | output (fmt : String) (reads : List Var)
deriving DecidableEq, Repr

/-- Format string of the first comparison print statement. -/
def skFmt : String := "R^2 score (SKL):  %s"

/-- Format string of the second comparison print statement. -/
def cumlFmt : String := "R^2 score (cuML): %s"

/-- The cuML workflow cells of the notebook, transcribed statement by
statement:

X, y = make_regression(n_samples=n_samples, n_features=n_features, random_state=random_state)
X = cudf.DataFrame(X)
y = cudf.DataFrame(y)[0]
X_cudf, X_cudf_test, y_cudf, y_cudf_test = train_test_split(X, y, test_size = 0.2, random_state=random_state)
X_train = X_cudf.to_pandas()
X_test = X_cudf_test.to_pandas()
y_train = y_cudf.to_pandas()
y_test = y_cudf_test.to_pandas()
ols_sk = skLinearRegression(fit_intercept=True, normalize=True, n_jobs=-1)
ols_sk.fit(X_train, y_train)
predict_sk = ols_sk.predict(X_test)
r2_score_sk = r2_score(y_cudf_test, predict_sk)
ols_cuml = cuLinearRegression(fit_intercept=True, normalize=True, algorithm=eig)
ols_cuml.fit(X_cudf, y_cudf)
predict_cuml = ols_cuml.predict(X_cudf_test)
r2_score_cuml = r2_score(y_cudf_test, predict_cuml)
print("R^2 score (SKL):  %s" % r2_score_sk)
print("R^2 score (cuML): %s" % r2_score_cuml)

The constructor call and the fit call of each model are transcribed as two
statements, mirroring the notebook. -/
def workflow : List Stmt :=
  [ Stmt.assign [Var.X, Var.y] Op.makeRegressionOp [],
    Stmt.assign [Var.X] Op.toDeviceDf [Var.X],
    Stmt.assign [Var.y] Op.toDeviceDf [Var.y],
    Stmt.assign [Var.X_cudf, Var.X_cudf_test, Var.y_cudf, Var.y_cudf_test]
      Op.splitOp [Var.X, Var.y],
    Stmt.assign [Var.X_train] Op.toPandasOp [Var.X_cudf],
    Stmt.assign [Var.X_test] Op.toPandasOp [Var.X_cudf_test],
    Stmt.assign [Var.y_train] Op.toPandasOp [Var.y_cudf],
    Stmt.assign [Var.y_test] Op.toPandasOp [Var.y_cudf_test],
    Stmt.assign [Var.ols_sk] Op.skInitOp [],
    Stmt.assign [Var.ols_sk] Op.skFitOp [Var.ols_sk, Var.X_train, Var.y_train],
    Stmt.assign [Var.predict_sk] Op.skPredictOp [Var.ols_sk, Var.X_test],
    Stmt.assign [Var.r2_score_sk] Op.r2ScoreOp [Var.y_cudf_test, Var.predict_sk],
    Stmt.assign [Var.ols_cuml] Op.cumlInitOp [],
    Stmt.assign [Var.ols_cuml] Op.cumlFitOp [Var.ols_cuml, Var.X_cudf, Var.y_cudf],
    Stmt.assign [Var.predict_cuml] Op.cumlPredictOp [Var.ols_cuml, Var.X_cudf_test],
    Stmt.assign [Var.r2_score_cuml] Op.r2ScoreOp [Var.y_cudf_test, Var.predict_cuml],
    Stmt.output skFmt [Var.r2_score_sk],
    Stmt.output cumlFmt [Var.r2_score_cuml] ]

/-- The operation a statement invokes. -/
def stmtOp : Stmt → Op
  | Stmt.assign _ op _ => op
  | Stmt.output _ _ => Op.printOp

/-- The variables a statement reads. -/
def stmtReads : Stmt → List Var
  | Stmt.assign _ _ rs => rs
  | Stmt.output _ rs => rs

/-- The variables a statement assigns. -/
def stmtWrites : Stmt → List Var
  | Stmt.assign lhs _ _ => lhs
  | Stmt.output _ _ => []

/-- The sequence of library operations the workflow invokes, in order. -/
def opsOf : List Op := workflow.map stmtOp

/-! ### Model of the pseudorandom dataset generation (cuML make_regression)

Modelled from the spec: `make_regression` is external library code not in
this repository.  Per the spec it produces a synthetic regression dataset
of `n_samples` rows by `n_features` columns plus a response column,
"generated synthetically with a fixed random seed for reproducibility".
We model it as a deterministic pseudorandom generator (a 64-bit linear
congruential generator) driven solely by `random_state`.  The `entropy`
argument models whatever ambient machine randomness would be available to
an unseeded generator; the notebook passes `random_state` explicitly, so
the model never consults it. -/

/-- One step of a 64-bit linear congruential generator. -/
def lcg (s : Nat) : Nat := (6364136223846793005 * s + 1442695040888963407) % 2 ^ 64

/-- The k-th state of the generator started from `seed`. -/
def lcgStream (seed : Nat) : Nat → Nat
  | 0 => lcg seed
  | k + 1 => lcg (lcgStream seed k)

/-- A pseudorandom value in a centred range, derived from the k-th state. -/
def centred (seed k : Nat) : Int := (Int.ofNat (lcgStream seed k % 2001)) - 1000

/-- Modelled from the spec: cuML `make_regression(n_samples, n_features,
random_state)` (external library code, not in src/).  Returns the predictor
matrix X (nSamples rows of nFeatures pseudorandom values), and the response
vector y, a linear combination of each row with pseudorandom coefficients.
The generator state is derived only from `seed`; `entropy` is ignored
because the notebook passes the seed explicitly. -/
def make_regression (entropy nSamples nFeatures seed : Nat) : List (List Int) × List Int :=
  let coef : List Int := (List.range nFeatures).map (fun j => centred (seed + 1) j)
  let row : Nat → List Int := fun i => (List.range nFeatures).map (fun j => centred seed (i * nFeatures + j))
  let X : List (List Int) := (List.range nSamples).map row
  let y : List Int := X.map (fun r => (List.zipWith (· * ·) r coef).sum)
  (X, y)

/-! ### Model of the train/test split (cuML train_test_split)

Modelled from the spec: `train_test_split` is external library code not in
this repository.  Per the spec it partitions the rows "into disjoint
training and test row subsets, proportion configurable (here 80/20),
partition chosen via the seeded random generator".  We model it at the
level of row indices: a seeded permutation of `range n`, whose first
`⌊0.8·n⌋` entries are the training rows and remaining entries the test
rows. -/

/-- Number of training rows for `test_size = 0.2`: `⌊0.8·n⌋`. -/
def trainCount (n : Nat) : Nat := 4 * n / 5

/-- A seeded permutation of the row indices `0, …, n-1`, modelling the
seeded shuffle of the split. -/
def shuffledIdx (seed n : Nat) : List Nat := (List.range n).rotate (lcg seed % (n + 1))

/-- Modelled from the spec: cuML `train_test_split(X, y, test_size=0.2,
random_state=seed)` (external library code, not in src/), at the level of
row indices: the pair (training row indices, test row indices). -/
def train_test_split (seed n : Nat) : List Nat × List Nat :=
  ((shuffledIdx seed n).take (trainCount n), (shuffledIdx seed n).drop (trainCount n))

/-! ### Data sizes flowing through the workflow -/

/-- Number of rows held by each workflow variable when the sample count is
`n`: the generated and split-input data have `n` rows, the training-side
variables `⌊0.8·n⌋` rows, the test-side variables the remaining rows, and
fitted models and scalar scores size 1. -/
def varRows (n : Nat) : Var → Nat
  | Var.X => n
  | Var.y => n
  | Var.X_cudf => trainCount n
  | Var.y_cudf => trainCount n
  | Var.X_cudf_test => n - trainCount n
  | Var.y_cudf_test => n - trainCount n
  | Var.X_train => trainCount n
  | Var.y_train => trainCount n
  | Var.X_test => n - trainCount n
  | Var.y_test => n - trainCount n
  | Var.ols_sk => 1
  | Var.ols_cuml => 1
  | Var.predict_sk => n - trainCount n
  | Var.predict_cuml => n - trainCount n
  | Var.r2_score_sk => 1
  | Var.r2_score_cuml => 1

/-- Number of rows a statement produces when the sample count is `n`. -/
def stmtRows (n : Nat) : Stmt → Nat
  | Stmt.assign lhs _ _ => (lhs.map (varRows n)).sum
  | Stmt.output _ _ => 1

/-- The execution trace of the workflow for sample count `n`: each invoked
operation paired with the number of rows it produces. -/
def sizedTrace (n : Nat) : List (Op × Nat) := workflow.map (fun st => (stmtOp st, stmtRows n st))

/-- The operation sequence of the trace for sample count `n`. -/
def opSeq (n : Nat) : List Op := (sizedTrace n).map Prod.fst

/-! ### Model of the printed comparison

The notebook prints the two scores with Python `%` formatting:
`print("R^2 score (SKL):  %s" % r2_score_sk)` and
`print("R^2 score (cuML): %s" % r2_score_cuml)`.  We model `fmt % arg`
by substituting the rendered argument for each occurrence of `%s`. -/

/-- Substitute `arg` for each occurrence of `%s` in a character list. -/
def fmtSubst : List Char → List Char → List Char
  | [], _ => []
  | '%' :: 's' :: rest, arg => arg ++ fmtSubst rest arg
  | c :: rest, arg => c :: fmtSubst rest arg

/-- Python-style `fmt % arg` formatting with a single string argument. -/
def pyFormat (fmt arg : String) : String := String.mk (fmtSubst fmt.data arg.data)

/-- The line printed by an output statement, given the rendered value of
each variable; assignments print nothing. -/
def renderStmt (env : Var → String) : Stmt → Option String
  | Stmt.output fmt rs => some (pyFormat fmt (env (rs.headD Var.X)))
  | Stmt.assign _ _ _ => none

/-- All lines the workflow prints, given the rendered value of each
variable. -/
def printedLines (env : Var → String) : List String := workflow.filterMap (renderStmt env)

/-- The rendered values of the two score variables; every other variable is
irrelevant to the printed output. -/
def scoreEnv (sk cuml : String) : Var → String
  | Var.r2_score_sk => sk
  | Var.r2_score_cuml => cuml
  | _ => ""

/-- The output of the comparison step when the scores render as `sk` and
`cuml`. -/
def compareOutput (sk cuml : String) : List String := printedLines (scoreEnv sk cuml)

/-- `pat` occurs as a contiguous substring of `s`. -/
def containsStr (s pat : String) : Prop := pat.data <:+: s.data

instance (s pat : String) : Decidable (containsStr s pat) :=
  inferInstanceAs (Decidable (pat.data <:+: s.data))

/-- `s` starts with `p`. -/
def startsWithStr (s p : String) : Prop := p.data <+: s.data

instance (s p : String) : Decidable (startsWithStr s p) :=
  inferInstanceAs (Decidable (p.data <+: s.data))

/-! ### Model of the cuDF tip-percentage computation

The cuDF cell computes
`tips_df['tip_percentage'] = tips_df['tip']/tips_df['total_bill']*100`,
an element-wise division with no guard against a zero `total_bill`.  We
model the numeric columns over ℚ; a division whose divisor is zero yields
no well-defined number (float division by zero produces an infinity or
NaN), which the model expresses as `none`. -/

/-- The tip percentage of one row: `tip / total_bill * 100`, a well-defined
number exactly when the divisor is nonzero. -/
def tipPercentageRow (tip total_bill : ℚ) : Option ℚ :=
  if total_bill = 0 then none else some (tip / total_bill * 100)

/-- The whole `tip_percentage` column, computed element-wise from the `tip`
and `total_bill` columns. -/
def tipPercentageCol (tips bills : List ℚ) : List (Option ℚ) :=
  List.zipWith tipPercentageRow tips bills

/-! ### Failure semantics of the workflow

The workflow has no exception handling; each statement is a library call
that may fail.  We give the trace a semantics parametrised by an
interpretation of statements that may fail with an error, and run the
statements in order, stopping at the first failure. -/

/-- Run the statements in order under interpretation `interp`, threading
the state; the first failing statement aborts the run with its error. -/
def runStmts {σ ε : Type} (interp : Stmt → σ → Except ε σ) : List Stmt → σ → Except ε σ
  | [], s => Except.ok s
  | st :: rest, s =>
    match interp st s with
    | Except.error e => Except.error e
    | Except.ok s2 => runStmts interp rest s2

/-! ### Consumption of the host-memory twins -/

/-- The four host-memory twins produced by the transfer step. -/
def hostTwins : List Var := [Var.X_train, Var.X_test, Var.y_train, Var.y_test]

/-- Whether a statement belongs to the host-side model's fit/evaluation:
the sklearn fit, the sklearn predict, or the scoring of the sklearn
predictions. -/
def isHostEvalStmt (st : Stmt) : Bool :=
  match stmtOp st with
  | Op.skFitOp => true
  | Op.skPredictOp => true
  | Op.r2ScoreOp => (stmtReads st).contains Var.predict_sk
  | _ => false

/-- Whether some host-side fit/evaluation statement of the workflow reads
the variable `v`. -/
def consumedByHostEval (v : Var) : Bool :=
  workflow.any (fun st => isHostEvalStmt st && (stmtReads st).contains v)

/-! ### Positions of the workflow steps -/

/-- Index of the first workflow statement invoking operation `op`. -/
def idxOfOp (op : Op) : Nat := workflow.findIdx (fun st => stmtOp st == op)

/-- Index of the statement scoring the sklearn predictions. -/
def idxOfSkScore : Nat :=
  workflow.findIdx (fun st => stmtOp st == Op.r2ScoreOp && (stmtReads st).contains Var.predict_sk)

/-- Index of the statement scoring the cuML predictions. -/
def idxOfCumlScore : Nat :=
  workflow.findIdx (fun st => stmtOp st == Op.r2ScoreOp && (stmtReads st).contains Var.predict_cuml)

/-! ## Theorems -/

theorem runStmts_append {σ ε : Type} (interp : Stmt → σ → Except ε σ)
    (l₁ l₂ : List Stmt) (s : σ) :
    runStmts interp (l₁ ++ l₂) s =
      match runStmts interp l₁ s with
      | Except.error e => Except.error e
      | Except.ok s2 => runStmts interp l₂ s2 := by
  induction l₁ generalizing s with
  | nil => simp [runStmts]
  | cons st rest ih =>
    simp only [List.cons_append, runStmts]
    cases interp st s with
    | error e => rfl
    | ok s2 => exact ih s2

/-- C2: for every sample count `n` (and every seed), `train_test_split`
with `test_size = 0.2` partitions the row indices into disjoint training
and test subsets whose union is a permutation of all `n` rows, in 80/20
proportion (`⌊0.8·n⌋` training rows, the remaining `⌈0.2·n⌉` test rows),
and the row counts satisfy `rows(train) + rows(test) = n`. -/
theorem train_test_split_partition (seed n : Nat) :
    (train_test_split seed n).1.length + (train_test_split seed n).2.length = n
    ∧ List.Disjoint (train_test_split seed n).1 (train_test_split seed n).2
    ∧ ((train_test_split seed n).1 ++ (train_test_split seed n).2).Perm (List.range n)
    ∧ (train_test_split seed n).1.length = 4 * n / 5
    ∧ (train_test_split seed n).2.length = (n + 4) / 5 := by
  have hlen : (shuffledIdx seed n).length = n := by
    simp [shuffledIdx, List.length_rotate, List.length_range]
  have hnd : (shuffledIdx seed n).Nodup :=
    (List.rotate_perm (List.range n) (lcg seed % (n + 1))).nodup_iff.mpr (List.nodup_range n)
  have htc : trainCount n ≤ n := by simp only [trainCount]; omega
  refine ⟨?_, ?_, ?_, ?_, ?_⟩
  · simp [train_test_split, List.length_take, List.length_drop, hlen, trainCount]
    omega
  · exact List.disjoint_take_drop hnd le_rfl
  · rw [show (train_test_split seed n).1 ++ (train_test_split seed n).2 = shuffledIdx seed n from
      List.take_append_drop (trainCount n) (shuffledIdx seed n)]
    exact List.rotate_perm (List.range n) (lcg seed % (n + 1))
  · simp [train_test_split, List.length_take, hlen, trainCount]
    omega
  · simp [train_test_split, List.length_drop, hlen, trainCount]
    omega

/-- C3: regenerating the dataset with the same `n_samples`, `n_features`
and `random_state` yields identical predictor matrices and response
vectors: the generator's output depends only on those arguments, not on
the ambient machine entropy available across the two executions. -/
theorem make_regression_reproducible (e₁ e₂ nSamples nFeatures seed : Nat) :
    make_regression e₁ nSamples nFeatures seed = make_regression e₂ nSamples nFeatures seed :=
  rfl

/-- C5: the sequence of operations the workflow executes is the same for
every value of `n_samples` — in particular for `2^20` and `2^19` — while
the sized traces for `2^20` and `2^19` differ only in the data sizes, not
in the operations. -/
theorem workflow_path_independent_of_n_samples :
    (∀ n₁ n₂ : Nat, opSeq n₁ = opSeq n₂)
    ∧ opSeq (2 ^ 20) = opSeq (2 ^ 19)
    ∧ sizedTrace (2 ^ 20) ≠ sizedTrace (2 ^ 19)
    ∧ (sizedTrace (2 ^ 20)).map Prod.fst = (sizedTrace (2 ^ 19)).map Prod.fst := by
  refine ⟨fun n₁ n₂ => rfl, rfl, ?_, rfl⟩
  decide

/-- C7: the workflow performs its steps in the stated order: data
generation, then the split, then the four device-to-host transfers, then
the host-side fit, predict and score (exactly once each), then the
device-side fit, predict and score (exactly once each), and finally the
two comparison prints, which are the last statements. -/
theorem workflow_step_order :
    idxOfOp Op.makeRegressionOp < idxOfOp Op.splitOp
    ∧ ((workflow.enum.filter (fun p => stmtOp p.2 == Op.toPandasOp)).all
        (fun p => decide (idxOfOp Op.splitOp < p.1) && decide (p.1 < idxOfOp Op.skFitOp)) = true)
    ∧ idxOfOp Op.skFitOp < idxOfOp Op.skPredictOp
    ∧ idxOfOp Op.skPredictOp < idxOfSkScore
    ∧ idxOfSkScore < idxOfOp Op.cumlFitOp
    ∧ idxOfOp Op.cumlFitOp < idxOfOp Op.cumlPredictOp
    ∧ idxOfOp Op.cumlPredictOp < idxOfCumlScore
    ∧ idxOfCumlScore < idxOfOp Op.printOp
    ∧ (workflow.drop (idxOfOp Op.printOp)).map stmtOp = [Op.printOp, Op.printOp]
    ∧ opsOf.count Op.skFitOp = 1 ∧ opsOf.count Op.skPredictOp = 1
    ∧ opsOf.count Op.cumlFitOp = 1 ∧ opsOf.count Op.cumlPredictOp = 1
    ∧ opsOf.count Op.r2ScoreOp = 2 ∧ opsOf.count Op.printOp = 2
    ∧ opsOf.count Op.makeRegressionOp = 1 ∧ opsOf.count Op.splitOp = 1
    ∧ opsOf.count Op.toPandasOp = 4 := by
  decide

/-- C4 counterexample: the host-memory twin `y_test` is one of the four
twins produced by the transfer step, yet no host-side fit/evaluation
statement of the workflow reads it — the claim that every twin is
consumed fails at `y_test`. -/
theorem host_twin_y_test_unconsumed :
    Var.y_test ∈ hostTwins ∧ consumedByHostEval Var.y_test = false := by
  decide

/-- C4 (amended): the transfer step copies (does not move) each of the
four split dataframes into a host-memory twin — the device-resident
originals are all still read by later statements — and the twins
`X_train`, `X_test` and `y_train` are consumed by the host-side model's
fit/evaluation calls, but the twin `y_test` is never read by any
statement of the workflow. -/
theorem transfer_copies_and_host_consumption :
    opsOf.count Op.toPandasOp = 4
    ∧ consumedByHostEval Var.X_train = true
    ∧ consumedByHostEval Var.X_test = true
    ∧ consumedByHostEval Var.y_train = true
    ∧ ((workflow.drop 8).any (fun st => (stmtReads st).contains Var.X_cudf) = true)
    ∧ ((workflow.drop 8).any (fun st => (stmtReads st).contains Var.X_cudf_test) = true)
    ∧ ((workflow.drop 8).any (fun st => (stmtReads st).contains Var.y_cudf) = true)
    ∧ ((workflow.drop 8).any (fun st => (stmtReads st).contains Var.y_cudf_test) = true)
    ∧ (workflow.all (fun st => !(stmtReads st).contains Var.y_test) = true) := by
  decide

/-- C9: the two scoring statements both invoke the same metric operation
(cuML's r2_score) and both read the device-resident ground-truth vector
`y_cudf_test`: the sklearn predictions `predict_sk` are scored against the
device-side test labels, and the host twin `y_test` is never read by any
statement of the workflow. -/
theorem r2_scoring_uses_device_labels :
    workflow.filter (fun st => stmtOp st == Op.r2ScoreOp) =
      [Stmt.assign [Var.r2_score_sk] Op.r2ScoreOp [Var.y_cudf_test, Var.predict_sk],
       Stmt.assign [Var.r2_score_cuml] Op.r2ScoreOp [Var.y_cudf_test, Var.predict_cuml]]
    ∧ (workflow.all (fun st => !(stmtReads st).contains Var.y_test) = true) := by
  decide

/-- C6 counterexample: when the scores render as "0.9262" and "0.9261",
no single printed line of the comparison step contains both scores — the
step prints each score on its own line, so the claim that one comparison
line holds both scores side by side fails. -/
theorem compare_output_no_single_line :
    ¬ ∃ line ∈ compareOutput ("0.9262") ("0.9261"),
        containsStr line ("0.9262") ∧ containsStr line ("0.9261") := by
  decide

/-- C6 (amended): the comparison step prints exactly two adjacent lines,
the first containing the host-side score in the documented format
"R^2 score (SKL):  %s" and the second containing the device-side score in
the documented format "R^2 score (cuML): %s". -/
theorem compare_output_format (sk cuml : String) :
    compareOutput sk cuml = [("R^2 score (SKL):  ") ++ sk, ("R^2 score (cuML): ") ++ cuml]
    ∧ containsStr (pyFormat skFmt sk) sk
    ∧ containsStr (pyFormat cumlFmt cuml) cuml
    ∧ startsWithStr (pyFormat skFmt sk) ("R^2 score (SKL):  ")
    ∧ startsWithStr (pyFormat cumlFmt cuml) ("R^2 score (cuML): ") := by
  obtain ⟨skd⟩ := sk
  obtain ⟨cud⟩ := cuml
  have h1 : fmtSubst skFmt.data skd = ("R^2 score (SKL):  ").data ++ (skd ++ []) := rfl
  have h2 : fmtSubst cumlFmt.data cud = ("R^2 score (cuML): ").data ++ (cud ++ []) := rfl
  refine ⟨?_, ?_, ?_, ?_, ?_⟩
  · show [String.mk (fmtSubst skFmt.data skd), String.mk (fmtSubst cumlFmt.data cud)] = _
    rw [h1, h2, List.append_nil, List.append_nil]
    rfl
  · show skd <:+: fmtSubst skFmt.data skd
    rw [h1, List.append_nil]
    exact ⟨("R^2 score (SKL):  ").data, [], by simp⟩
  · show cud <:+: fmtSubst cumlFmt.data cud
    rw [h2, List.append_nil]
    exact ⟨("R^2 score (cuML): ").data, [], by simp⟩
  · show ("R^2 score (SKL):  ").data <+: fmtSubst skFmt.data skd
    rw [h1]
    exact List.prefix_append _ _
  · show ("R^2 score (cuML): ").data <+: fmtSubst cumlFmt.data cud
    rw [h2]
    exact List.prefix_append _ _

/-- C8: the workflow contains no exception handling: under any
interpretation of the library calls, if the statements before some
statement succeed and that statement fails with error `e`, the whole
workflow run results in exactly the error `e`, propagated unmodified to
the caller. -/
theorem workflow_error_propagation {σ ε : Type} (interp : Stmt → σ → Except ε σ)
    (l₁ l₂ : List Stmt) (st : Stmt) (s s2 : σ) (e : ε)
    (hsplit : workflow = l₁ ++ st :: l₂)
    (hok : runStmts interp l₁ s = Except.ok s2)
    (hfail : interp st s2 = Except.error e) :
    runStmts interp workflow s = Except.error e := by
  rw [hsplit, runStmts_append interp l₁ (st :: l₂) s, hok]
  show runStmts interp (st :: l₂) s2 = Except.error e
  simp only [runStmts, hfail]

/-- Witness for C8: under the interpretation where the very first library
call (the data generation) fails — e.g. an import or environment error,
numbered 7 — the whole workflow run results in exactly that error. -/
theorem workflow_error_propagation_witness :
    runStmts (fun _ _ => (Except.error 7 : Except Nat Unit)) workflow () = Except.error 7 :=
  workflow_error_propagation (fun _ _ => (Except.error 7 : Except Nat Unit))
    [] (workflow.drop 1) (Stmt.assign [Var.X, Var.y] Op.makeRegressionOp []) () () 7
    rfl rfl rfl

/-- C10: the tip-percentage computation divides the `tip` column by the
`total_bill` column element-wise with no guard against zero: a row's
`tip_percentage` is the well-defined number `tip / total_bill * 100`
exactly when that row's `total_bill` is nonzero, and the column is
computed row by row. -/
theorem tip_percentage_welldef (tip total_bill : ℚ) (tips bills : List ℚ) :
    (tipPercentageRow tip total_bill = some (tip / total_bill * 100) ↔ total_bill ≠ 0)
    ∧ tipPercentageCol (tip :: tips) (total_bill :: bills) =
        tipPercentageRow tip total_bill :: tipPercentageCol tips bills := by
  constructor
  · by_cases h : total_bill = 0 <;> simp [tipPercentageRow, h]
  · rfl

end RapidsIntro
